import Mathlib

/-!
Shallow embedding of `keystone/api/groups.py`: the flask-restful resources
for `/v3/groups` (group CRUD, listing users in a group, and user/group
membership check/add/remove), together with the enforcement-target builder
and its NotFound-masking policy.

The identity backend (`PROVIDERS.identity_api`) and the RBAC enforcer
(`ENFORCER.enforce_call`) are external collaborators: they are modelled as
records of arbitrary functions returning `Except Exc _`, mirroring Python
code that either returns a value or raises an exception.  Handlers are
embedded as functions that return both their result (`Except Exc Res`) and
a trace of the collaborator calls they made, in order, so that ordering
properties (enforcement before the primary backend operation) are statable.
HTTP routing, request parsing and response serialization are plumbing
outside this file's scope; a handler receives its path parameters and the
already-extracted `group` body directly, and `wrap_member`/`wrap_collection`
are modelled as constructors of the result type.
-/

namespace Keystone

/-- A group record as returned by the identity backend (`get_group`).
Only identity matters to this layer; `payload` stands for the remaining
fields (domain scope, name, description, enabled flag). -/
structure Group where
  id : String
  payload : Nat
deriving DecidableEq, Repr

/-- A user record as returned by the identity backend (`get_user`). -/
structure User where
  id : String
  payload : Nat
deriving DecidableEq, Repr

/-- The `group` dict extracted from a request body
(`self.request_body_json.get('group', {})`).  The embedding keeps the one
field the handlers inspect (`id`, optional) and abstracts the rest. -/
structure GroupDoc where
  id : Option String
  payload : Nat
deriving DecidableEq, Repr

/-- Exceptions that can cross the boundaries modelled here, mirroring
`keystone.exception`: `GroupNotFound`/`UserNotFound` carry the id that was
looked up; `ForbiddenAction` is raised by the enforcer on deny;
`ValidationError` by body validation / id-matching; `other` stands for any
exception of a different class (e.g. an unexpected backend failure). -/
inductive Exc where
  | groupNotFound (group_id : String)
  | userNotFound (user_id : String)
  | forbidden
  | validationError
  | other (code : Nat)
deriving DecidableEq, Repr

/-- True exactly on `GroupNotFound` exceptions (of any id), matching what
`except exception.GroupNotFound` catches. -/
def Exc.isGroupNotFound : Exc → Bool
  | .groupNotFound _ => true
  | _ => false

/-- True exactly on `UserNotFound` exceptions (of any id), matching what
`except exception.UserNotFound` catches. -/
def Exc.isUserNotFound : Exc → Bool
  | .userNotFound _ => true
  | _ => false

/-- A value stored in an enforcement-target dict. -/
inductive TVal where
  | group (g : Group)
  | user (u : User)
deriving DecidableEq, Repr

/-- An enforcement target (`target_attr`): a Python dict, embedded as an
association list in insertion order. -/
abbrev Target := List (String × TVal)

/-- Driver hints: the external hint builder is opaque to this layer; the
embedding carries the recognized filter names through. -/
abbrev Hints := List String

/-- One collaborator call made by a handler, in the order it happened. -/
inductive Event where
  | get_group (group_id : String)
  | get_user (user_id : String)
  | enforce (action : String) (target_attr : Option Target) (filters : List String)
  | list_groups (domain : Option String) (hints : Hints)
  | create_group (g : GroupDoc)
  | update_group (group_id : String) (g : GroupDoc)
  | delete_group (group_id : String)
  | list_users_in_group (group_id : String) (hints : Hints)
  | check_user_in_group (user_id : String) (group_id : String)
  | add_user_to_group (user_id : String) (group_id : String)
  | remove_user_from_group (user_id : String) (group_id : String)
deriving DecidableEq, Repr

abbrev Trace := List Event

/-- The identity backend (`PROVIDERS.identity_api`), an external
collaborator: each operation returns a value or raises an exception. -/
structure IdentityApi where
  get_group : String → Except Exc Group
  get_user : String → Except Exc User
  list_groups : Option String → Hints → Except Exc (List Group)
  create_group : GroupDoc → Except Exc Group
  update_group : String → GroupDoc → Except Exc Group
  delete_group : String → Except Exc Unit
  list_users_in_group : String → Hints → Except Exc (List User)
  check_user_in_group : String → String → Except Exc Unit
  add_user_to_group : String → String → Except Exc Unit
  remove_user_from_group : String → String → Except Exc Unit

/-- The RBAC enforcer (`ENFORCER.enforce_call`), an external collaborator:
given the action name, the optional `target_attr` and the filter list, it
returns unit on allow and raises (typically `Exc.forbidden`) on deny. -/
structure Enforcer where
  enforce_call : String → Option Target → List String → Except Exc Unit

/-- The remaining external collaborators used by the handlers
(`ks_flask.ResourceBase` helpers and `validation.lazy_validate` with the
identity schemas), abstracted as arbitrary functions. -/
structure Externals where
  lazy_validate_group_create : GroupDoc → Except Exc Unit
  lazy_validate_group_update : GroupDoc → Except Exc Unit
  normalize_dict : GroupDoc → GroupDoc
  normalize_domain_id : GroupDoc → Except Exc GroupDoc
  get_domain_id_for_list_request : Except Exc (Option String)
  build_driver_hints : List String → Hints

/-- Everything a handler touches. -/
structure Deps where
  api : IdentityApi
  enf : Enforcer
  ext : Externals

/-- The observable success result of a handler: `wrap_member`,
`wrap_collection`, the Created status of POST and the empty 204 body are
modelled as constructors. -/
inductive Res where
  | member (g : Group)
  | created (g : Group)
  | groupCollection (gs : List Group)
  | userCollection (collection_name : String) (us : List User)
  | noContent
deriving DecidableEq, Repr

/-- Sequence a collaborator call: record its event, short-circuit on an
uncaught exception, otherwise continue; the continuation's trace follows
the event. -/
def step {α β : Type} (ev : Event) (r : Except Exc α)
    (k : α → Except Exc β × Trace) : Except Exc β × Trace :=
  match r with
  | .error e => (.error e, [ev])
  | .ok a => ((k a).1, ev :: (k a).2)

/-- Sequence a call to an external (non-backend, non-enforcer) helper:
no event is recorded, exceptions short-circuit. -/
def stepE {α β : Type} (r : Except Exc α)
    (k : α → Except Exc β × Trace) : Except Exc β × Trace :=
  match r with
  | .error e => (.error e, [])
  | .ok a => k a

/-- Sequence a sub-computation that already carries a trace. -/
def bindTr {α β : Type} (p : Except Exc α × Trace)
    (k : α → Except Exc β × Trace) : Except Exc β × Trace :=
  match p with
  | (.error e, tr) => (.error e, tr)
  | (.ok a, tr) => (tr ++ ((k a).2)) |> fun t => ((k a).1, t)

/-- The body of `try: target['group'] = ...get_group(group_id) except
exception.GroupNotFound: pass`: a successful lookup yields the record, a
`GroupNotFound` of any id is swallowed (key omitted), any other exception
propagates. -/
def lookup_group_masked (api : IdentityApi) (group_id : String) :
    Except Exc (Option Group) :=
  match api.get_group group_id with
  | .ok g => .ok (some g)
  | .error (.groupNotFound _) => .ok none
  | .error e => .error e

/-- The body of `try: target['user'] = ...get_user(user_id) except
exception.UserNotFound: pass`. -/
def lookup_user_masked (api : IdentityApi) (user_id : String) :
    Except Exc (Option User) :=
  match api.get_user user_id with
  | .ok u => .ok (some u)
  | .error (.userNotFound _) => .ok none
  | .error e => .error e

namespace UserGroupCRUDResource

/-- `UserGroupCRUDResource._build_enforcement_target_attr(user_id,
group_id)`: build the enforcement target dict, trying the group lookup
first and the user lookup second, masking each lookup's own NotFound. -/
def build_enforcement_target_attr (api : IdentityApi)
    (user_id group_id : String) : Except Exc Target × Trace :=
  step (.get_group group_id) (lookup_group_masked api group_id) fun og =>
  step (.get_user user_id) (lookup_user_masked api user_id) fun ou =>
  (.ok ((og.map fun g => ("group", TVal.group g)).toList ++
        (ou.map fun u => ("user", TVal.user u)).toList), [])

/-- `UserGroupCRUDResource.get`: check if a user is in a group
(`GET/HEAD /groups/{group_id}/users/{user_id}`). -/
def get (d : Deps) (group_id user_id : String) : Except Exc Res × Trace :=
  bindTr (build_enforcement_target_attr d.api user_id group_id) fun target =>
  step (.enforce "identity:check_user_in_group" (some target) [])
       (d.enf.enforce_call "identity:check_user_in_group" (some target) []) fun _ =>
  step (.check_user_in_group user_id group_id)
       (d.api.check_user_in_group user_id group_id) fun _ =>
  (.ok .noContent, [])

/-- `UserGroupCRUDResource.put`: add user to group
(`PUT /groups/{group_id}/users/{user_id}`). -/
def put (d : Deps) (group_id user_id : String) : Except Exc Res × Trace :=
  bindTr (build_enforcement_target_attr d.api user_id group_id) fun target =>
  step (.enforce "identity:add_user_to_group" (some target) [])
       (d.enf.enforce_call "identity:add_user_to_group" (some target) []) fun _ =>
  step (.add_user_to_group user_id group_id)
       (d.api.add_user_to_group user_id group_id) fun _ =>
  (.ok .noContent, [])

/-- `UserGroupCRUDResource.delete`: remove user from group
(`DELETE /groups/{group_id}/users/{user_id}`). -/
def delete (d : Deps) (group_id user_id : String) : Except Exc Res × Trace :=
  bindTr (build_enforcement_target_attr d.api user_id group_id) fun target =>
  step (.enforce "identity:remove_user_from_group" (some target) [])
       (d.enf.enforce_call "identity:remove_user_from_group" (some target) []) fun _ =>
  step (.remove_user_from_group user_id group_id)
       (d.api.remove_user_from_group user_id group_id) fun _ =>
  (.ok .noContent, [])

end UserGroupCRUDResource

/-- Modelled from the spec: `ResourceBase._require_matching_id` is code of
this repository outside `src/`.  Per the spec, update "fails with
ValidationError when the request body carries an `id` field differing from
the path `group_id`; succeeds (passes through) when absent or equal". -/
def require_matching_id (group_id : String) (g : GroupDoc) :
    Except Exc Unit :=
  match g.id with
  | none => .ok ()
  | some i => if i = group_id then .ok () else .error .validationError

namespace GroupsResource

/-- `GroupsResource._get_group`: get a group reference
(`GET/HEAD /groups/{group_id}`). -/
def get_group (d : Deps) (group_id : String) : Except Exc Res × Trace :=
  step (.enforce "identity:get_group" none [])
       (d.enf.enforce_call "identity:get_group" none []) fun _ =>
  step (.get_group group_id) (d.api.get_group group_id) fun g =>
  (.ok (.member g), [])

/-- `GroupsResource._list_groups`: list groups (`GET/HEAD /groups`). -/
def list_groups (d : Deps) : Except Exc Res × Trace :=
  step (.enforce "identity:list_groups" none ["domain_id", "name"])
       (d.enf.enforce_call "identity:list_groups" none ["domain_id", "name"]) fun _ =>
  stepE d.ext.get_domain_id_for_list_request fun domain =>
  step (.list_groups domain (d.ext.build_driver_hints ["domain_id", "name"]))
       (d.api.list_groups domain (d.ext.build_driver_hints ["domain_id", "name"])) fun refs =>
  (.ok (.groupCollection refs), [])

/-- `GroupsResource.get`: dispatch on whether a `group_id` path parameter
is present. -/
def get (d : Deps) (group_id : Option String) : Except Exc Res × Trace :=
  match group_id with
  | some gid => get_group d gid
  | none => list_groups d

/-- `GroupsResource.post`: create group (`POST /groups`). -/
def post (d : Deps) (body : GroupDoc) : Except Exc Res × Trace :=
  step (.enforce "identity:create_group" none [])
       (d.enf.enforce_call "identity:create_group" none []) fun _ =>
  stepE (d.ext.lazy_validate_group_create body) fun _ =>
  stepE (d.ext.normalize_domain_id (d.ext.normalize_dict body)) fun group =>
  step (.create_group group) (d.api.create_group group) fun ref =>
  (.ok (.created ref), [])

/-- `GroupsResource.patch`: update group (`PATCH /groups/{group_id}`). -/
def patch (d : Deps) (group_id : String) (body : GroupDoc) :
    Except Exc Res × Trace :=
  step (.enforce "identity:update_group" none [])
       (d.enf.enforce_call "identity:update_group" none []) fun _ =>
  stepE (d.ext.lazy_validate_group_update body) fun _ =>
  stepE (require_matching_id group_id body) fun _ =>
  step (.update_group group_id body) (d.api.update_group group_id body) fun ref =>
  (.ok (.member ref), [])

/-- `GroupsResource.delete`: delete group (`DELETE /groups/{group_id}`). -/
def delete (d : Deps) (group_id : String) : Except Exc Res × Trace :=
  step (.enforce "identity:delete_group" none [])
       (d.enf.enforce_call "identity:delete_group" none []) fun _ =>
  step (.delete_group group_id) (d.api.delete_group group_id) fun _ =>
  (.ok .noContent, [])

end GroupsResource

namespace GroupUsersResource

/-- `GroupUsersResource.get`: get list of users in group
(`GET/HEAD /groups/{group_id}/users`).  The target dict starts empty and
receives the group record only if `get_group` succeeds; a `GroupNotFound`
while populating it is swallowed. -/
def get (d : Deps) (group_id : String) : Except Exc Res × Trace :=
  step (.get_group group_id) (lookup_group_masked d.api group_id) fun og =>
  step (.enforce "identity:list_users_in_group"
         (some ((og.map fun g => ("group", TVal.group g)).toList))
         ["domain_id", "enabled", "name", "password_expires_at"])
       (d.enf.enforce_call "identity:list_users_in_group"
         (some ((og.map fun g => ("group", TVal.group g)).toList))
         ["domain_id", "enabled", "name", "password_expires_at"]) fun _ =>
  step (.list_users_in_group group_id
         (d.ext.build_driver_hints ["domain_id", "enabled", "name", "password_expires_at"]))
       (d.api.list_users_in_group group_id
         (d.ext.build_driver_hints ["domain_id", "enabled", "name", "password_expires_at"])) fun refs =>
  (.ok (.userCollection "users" refs), [])

end GroupUsersResource

/-- One name per request handler in the file. -/
inductive HandlerId where
  | get_group
  | list_groups
  | create_group
  | update_group
  | delete_group
  | list_users_in_group
  | check_user_in_group
  | add_user_to_group
  | remove_user_from_group
deriving DecidableEq, Repr

/-- A request's path parameters and body, bundled so every handler can be
run from the same data. -/
structure Req where
  group_id : String
  user_id : String
  body : GroupDoc
deriving DecidableEq, Repr

/-- Run the handler named `h` on request `req`. -/
def runHandler (d : Deps) (h : HandlerId) (req : Req) :
    Except Exc Res × Trace :=
  match h with
  | .get_group => GroupsResource.get_group d req.group_id
  | .list_groups => GroupsResource.list_groups d
  | .create_group => GroupsResource.post d req.body
  | .update_group => GroupsResource.patch d req.group_id req.body
  | .delete_group => GroupsResource.delete d req.group_id
  | .list_users_in_group => GroupUsersResource.get d req.group_id
  | .check_user_in_group => UserGroupCRUDResource.get d req.group_id req.user_id
  | .add_user_to_group => UserGroupCRUDResource.put d req.group_id req.user_id
  | .remove_user_from_group => UserGroupCRUDResource.delete d req.group_id req.user_id

/-- The literal action name each handler enforces. -/
def actionOf : HandlerId → String
  | .get_group => "identity:get_group"
  | .list_groups => "identity:list_groups"
  | .create_group => "identity:create_group"
  | .update_group => "identity:update_group"
  | .delete_group => "identity:delete_group"
  | .list_users_in_group => "identity:list_users_in_group"
  | .check_user_in_group => "identity:check_user_in_group"
  | .add_user_to_group => "identity:add_user_to_group"
  | .remove_user_from_group => "identity:remove_user_from_group"

/-- Whether an event is an invocation of the policy enforcer. -/
def Event.isEnforce : Event → Bool
  | .enforce .. => true
  | _ => false

/-- Whether `ev` is the given handler's primary backend operation (the
backend call the handler exists to perform, as opposed to the
target-building lookups). -/
def primaryEv : HandlerId → Event → Bool
  | .get_group, .get_group _ => true
  | .list_groups, .list_groups _ _ => true
  | .create_group, .create_group _ => true
  | .update_group, .update_group _ _ => true
  | .delete_group, .delete_group _ => true
  | .list_users_in_group, .list_users_in_group _ _ => true
  | .check_user_in_group, .check_user_in_group _ _ => true
  | .add_user_to_group, .add_user_to_group _ _ => true
  | .remove_user_from_group, .remove_user_from_group _ _ => true
  | _, _ => false

/-- Holds when every event satisfying `isP` is preceded (strictly) by an
enforcer invocation in the trace. -/
def enforceBefore (isP : Event → Bool) : Trace → Bool
  | [] => true
  | e :: tr => if e.isEnforce then true else !isP e && enforceBefore isP tr

/-- A group lookup behaving nominally: it either returns a record or
raises `GroupNotFound` (the entity simply exists or not — no unrelated
backend failure). -/
def nominalGroupLookup : Except Exc Group → Bool
  | .ok _ => true
  | .error (.groupNotFound _) => true
  | .error _ => false

/-- A user lookup behaving nominally: returns a record or raises
`UserNotFound`. -/
def nominalUserLookup : Except Exc User → Bool
  | .ok _ => true
  | .error (.userNotFound _) => true
  | .error _ => false

/-- The group-only enforcement target, as a function of the group lookup's
outcome: `{group: <record>}` when the lookup succeeds, empty otherwise. -/
def groupOnlyTarget (r : Except Exc Group) : Target :=
  match r with
  | .ok g => [("group", TVal.group g)]
  | .error _ => []

end Keystone

deriving instance DecidableEq for Except

namespace Keystone

/-- Decidable conformance of a target to the builder's contract: every
entry is either the `group` key holding exactly the record returned by
`get_group(group_id)` or the `user` key holding exactly the record
returned by `get_user(user_id)`. -/
def targetConforms (api : IdentityApi) (user_id group_id : String)
    (t : Target) : Bool :=
  t.all fun p =>
    match p.2 with
    | TVal.group g => p.1 == "group" && decide (api.get_group group_id = .ok g)
    | TVal.user u => p.1 == "user" && decide (api.get_user user_id = .ok u)

/-! Concrete fixtures: a tiny backend holding one group `g1` and one user
`u1`, an empty backend, two backends whose lookups fail with a non-NotFound
exception, an all-allow enforcer, an all-deny enforcer, and trivial
externals.  They are used to evaluate the theorems on concrete requests. -/

def g1 : Group := ⟨"g1", 0⟩

def u1 : User := ⟨"u1", 0⟩

def apiW : IdentityApi where
  get_group := fun gid => if gid = "g1" then .ok g1 else .error (.groupNotFound gid)
  get_user := fun uid => if uid = "u1" then .ok u1 else .error (.userNotFound uid)
  list_groups := fun _ _ => .ok [g1]
  create_group := fun g => .ok ⟨"g2", g.payload⟩
  update_group := fun gid g =>
    if gid = "g1" then .ok ⟨gid, g.payload⟩ else .error (.groupNotFound gid)
  delete_group := fun gid =>
    if gid = "g1" then .ok () else .error (.groupNotFound gid)
  list_users_in_group := fun gid _ =>
    if gid = "g1" then .ok [u1] else .error (.groupNotFound gid)
  check_user_in_group := fun uid gid =>
    if uid = "u1" && gid = "g1" then .ok () else .error (.userNotFound uid)
  add_user_to_group := fun uid gid =>
    if gid = "g1" then
      (if uid = "u1" then .ok () else .error (.userNotFound uid))
    else .error (.groupNotFound gid)
  remove_user_from_group := fun uid gid =>
    if uid = "u1" && gid = "g1" then .ok () else .error (.userNotFound uid)

/-- A concrete backend in which no group and no user exists. -/
def apiEmpty : IdentityApi where
  get_group := fun gid => .error (.groupNotFound gid)
  get_user := fun uid => .error (.userNotFound uid)
  list_groups := fun _ _ => .ok []
  create_group := fun g => .ok ⟨"g2", g.payload⟩
  update_group := fun gid _ => .error (.groupNotFound gid)
  delete_group := fun gid => .error (.groupNotFound gid)
  list_users_in_group := fun gid _ => .error (.groupNotFound gid)
  check_user_in_group := fun uid _ => .error (.userNotFound uid)
  add_user_to_group := fun _ gid => .error (.groupNotFound gid)
  remove_user_from_group := fun uid _ => .error (.userNotFound uid)

/-- A backend whose group lookup raises an exception that is not
`GroupNotFound`. -/
def apiBroken : IdentityApi :=
  { apiW with get_group := fun _ => .error (.other 7) }

/-- A backend whose user lookup raises an exception that is not
`UserNotFound`. -/
def apiBroken2 : IdentityApi :=
  { apiW with get_user := fun _ => .error (.other 8) }

def enfAllow : Enforcer := ⟨fun _ _ _ => .ok ()⟩

def enfDeny : Enforcer := ⟨fun _ _ _ => .error .forbidden⟩

def extW : Externals where
  lazy_validate_group_create := fun _ => .ok ()
  lazy_validate_group_update := fun _ => .ok ()
  normalize_dict := fun g => g
  normalize_domain_id := fun g => .ok g
  get_domain_id_for_list_request := .ok none
  build_driver_hints := fun fs => fs

def depsW : Deps := ⟨apiW, enfAllow, extW⟩

def depsDeny : Deps := ⟨apiW, enfDeny, extW⟩

/-- A concrete request naming the existing group and user. -/
def reqW : Req := ⟨"g1", "u1", ⟨none, 0⟩⟩

/-! Basic reduction lemmas for the sequencing helpers. -/

@[simp] theorem step_ok {α β : Type} (ev : Event) (a : α)
    (k : α → Except Exc β × Trace) :
    step ev (.ok a) k = ((k a).1, ev :: (k a).2) := rfl

@[simp] theorem step_error {α β : Type} (ev : Event) (e : Exc)
    (k : α → Except Exc β × Trace) :
    step ev (.error e) k = (.error e, [ev]) := rfl

@[simp] theorem stepE_ok {α β : Type} (a : α)
    (k : α → Except Exc β × Trace) : stepE (.ok a) k = k a := rfl

@[simp] theorem stepE_error {α β : Type} (e : Exc)
    (k : α → Except Exc β × Trace) :
    stepE (Except.error e) k = (.error e, ([] : Trace)) := rfl

@[simp] theorem bindTr_ok {α β : Type} (a : α) (tr : Trace)
    (k : α → Except Exc β × Trace) :
    bindTr (.ok a, tr) k = ((k a).1, tr ++ (k a).2) := rfl

@[simp] theorem bindTr_error {α β : Type} (e : Exc) (tr : Trace)
    (k : α → Except Exc β × Trace) :
    bindTr (.error e, tr) k = (.error e, tr) := rfl

theorem bindTr_of_error {α β : Type} {p : Except Exc α × Trace}
    {k : α → Except Exc β × Trace} {e : Exc}
    (h : p.1 = .error e) : bindTr p k = (.error e, p.2) := by
  rcases p with ⟨r, tr⟩
  cases r <;> simp_all [bindTr]

theorem mem_step {α β : Type} {ev : Event} {r : Except Exc α}
    {k : α → Except Exc β × Trace} {e : Event}
    (h : e ∈ (step ev r k).2) : e = ev ∨ ∃ a, r = .ok a ∧ e ∈ (k a).2 := by
  cases r with
  | error ex => simp [step] at h; exact .inl h
  | ok a =>
    simp [step] at h
    rcases h with h | h
    · exact .inl h
    · exact .inr ⟨a, rfl, h⟩

theorem mem_bindTr {α β : Type} {p : Except Exc α × Trace}
    {k : α → Except Exc β × Trace} {e : Event}
    (h : e ∈ (bindTr p k).2) : e ∈ p.2 ∨ ∃ a, p.1 = .ok a ∧ e ∈ (k a).2 := by
  rcases p with ⟨r, tr⟩
  cases r with
  | error ex => simp [bindTr] at h; exact .inl h
  | ok a =>
    simp [bindTr] at h
    rcases h with h | h
    · exact .inl h
    · exact .inr ⟨a, rfl, h⟩

/-! Case-analysis lemmas for nominal lookups. -/

theorem nominalGroupLookup_cases {r : Except Exc Group}
    (h : nominalGroupLookup r = true) :
    (∃ g, r = .ok g) ∨ (∃ i, r = .error (.groupNotFound i)) := by
  match r, h with
  | .ok g, _ => exact .inl ⟨g, rfl⟩
  | .error (.groupNotFound i), _ => exact .inr ⟨i, rfl⟩

theorem nominalUserLookup_cases {r : Except Exc User}
    (h : nominalUserLookup r = true) :
    (∃ u, r = .ok u) ∨ (∃ i, r = .error (.userNotFound i)) := by
  match r, h with
  | .ok u, _ => exact .inl ⟨u, rfl⟩
  | .error (.userNotFound i), _ => exact .inr ⟨i, rfl⟩

/-! The builder's trace holds nothing but the two lookups. -/

theorem builder_trace_events (api : IdentityApi) (uid gid : String) :
    ∀ e ∈ (UserGroupCRUDResource.build_enforcement_target_attr api uid gid).2,
      e = .get_group gid ∨ e = .get_user uid := by
  unfold UserGroupCRUDResource.build_enforcement_target_attr
  cases hg : lookup_group_masked api gid <;>
    cases hu : lookup_user_masked api uid <;> simp

/-! Ordering helper lemmas: a handler whose next step is the enforcer call
satisfies `enforceBefore` outright, whatever follows. -/

theorem enforceBefore_step_enforce (isP : Event → Bool) (a : String)
    (t : Option Target) (f : List String) {α : Type} (r : Except Exc α)
    (k : α → Except Exc Res × Trace) :
    enforceBefore isP (step (.enforce a t f) r k).2 = true := by
  cases r <;> simp [step, enforceBefore, Event.isEnforce]

theorem order_check_user_in_group (d : Deps) (gid uid : String) :
    enforceBefore (primaryEv .check_user_in_group)
      (UserGroupCRUDResource.get d gid uid).2 = true := by
  unfold UserGroupCRUDResource.get UserGroupCRUDResource.build_enforcement_target_attr
  cases hg : lookup_group_masked d.api gid <;>
    cases hu : lookup_user_masked d.api uid <;>
    simp [enforceBefore, primaryEv, Event.isEnforce, enforceBefore_step_enforce]

theorem order_add_user_to_group (d : Deps) (gid uid : String) :
    enforceBefore (primaryEv .add_user_to_group)
      (UserGroupCRUDResource.put d gid uid).2 = true := by
  unfold UserGroupCRUDResource.put UserGroupCRUDResource.build_enforcement_target_attr
  cases hg : lookup_group_masked d.api gid <;>
    cases hu : lookup_user_masked d.api uid <;>
    simp [enforceBefore, primaryEv, Event.isEnforce, enforceBefore_step_enforce]

theorem order_remove_user_from_group (d : Deps) (gid uid : String) :
    enforceBefore (primaryEv .remove_user_from_group)
      (UserGroupCRUDResource.delete d gid uid).2 = true := by
  unfold UserGroupCRUDResource.delete UserGroupCRUDResource.build_enforcement_target_attr
  cases hg : lookup_group_masked d.api gid <;>
    cases hu : lookup_user_masked d.api uid <;>
    simp [enforceBefore, primaryEv, Event.isEnforce, enforceBefore_step_enforce]

theorem order_list_users_in_group (d : Deps) (gid : String) :
    enforceBefore (primaryEv .list_users_in_group)
      (GroupUsersResource.get d gid).2 = true := by
  unfold GroupUsersResource.get
  cases hg : lookup_group_masked d.api gid <;>
    simp [enforceBefore, primaryEv, Event.isEnforce, enforceBefore_step_enforce]

/-! Denial helper lemmas: when the enforcer denies the handler's action, the
handler's outcome is `Exc.forbidden` and its primary backend operation never
appears in the trace.  The handlers that build a target first additionally
need the lookups to behave nominally (otherwise their own failure, not the
denial, is the outcome). -/

theorem denied_get_group (d : Deps) (gid : String)
    (h : d.enf.enforce_call "identity:get_group" none [] = .error .forbidden) :
    (GroupsResource.get_group d gid).1 = .error .forbidden ∧
    ∀ e ∈ (GroupsResource.get_group d gid).2, primaryEv .get_group e = false := by
  simp [GroupsResource.get_group, h, primaryEv]

theorem denied_list_groups (d : Deps)
    (h : d.enf.enforce_call "identity:list_groups" none ["domain_id", "name"] =
      .error .forbidden) :
    (GroupsResource.list_groups d).1 = .error .forbidden ∧
    ∀ e ∈ (GroupsResource.list_groups d).2, primaryEv .list_groups e = false := by
  simp [GroupsResource.list_groups, h, primaryEv]

theorem denied_create_group (d : Deps) (body : GroupDoc)
    (h : d.enf.enforce_call "identity:create_group" none [] = .error .forbidden) :
    (GroupsResource.post d body).1 = .error .forbidden ∧
    ∀ e ∈ (GroupsResource.post d body).2, primaryEv .create_group e = false := by
  simp [GroupsResource.post, h, primaryEv]

theorem denied_update_group (d : Deps) (gid : String) (body : GroupDoc)
    (h : d.enf.enforce_call "identity:update_group" none [] = .error .forbidden) :
    (GroupsResource.patch d gid body).1 = .error .forbidden ∧
    ∀ e ∈ (GroupsResource.patch d gid body).2, primaryEv .update_group e = false := by
  simp [GroupsResource.patch, h, primaryEv]

theorem denied_delete_group (d : Deps) (gid : String)
    (h : d.enf.enforce_call "identity:delete_group" none [] = .error .forbidden) :
    (GroupsResource.delete d gid).1 = .error .forbidden ∧
    ∀ e ∈ (GroupsResource.delete d gid).2, primaryEv .delete_group e = false := by
  simp [GroupsResource.delete, h, primaryEv]

theorem denied_list_users_in_group (d : Deps) (gid : String)
    (hg : nominalGroupLookup (d.api.get_group gid) = true)
    (h : ∀ t, d.enf.enforce_call "identity:list_users_in_group" (some t)
      ["domain_id", "enabled", "name", "password_expires_at"] = .error .forbidden) :
    (GroupUsersResource.get d gid).1 = .error .forbidden ∧
    ∀ e ∈ (GroupUsersResource.get d gid).2, primaryEv .list_users_in_group e = false := by
  rcases nominalGroupLookup_cases hg with ⟨g, hgk⟩ | ⟨i, hgk⟩ <;>
    simp [GroupUsersResource.get, lookup_group_masked, hgk, h, primaryEv]

theorem denied_check_user_in_group (d : Deps) (gid uid : String)
    (hg : nominalGroupLookup (d.api.get_group gid) = true)
    (hu : nominalUserLookup (d.api.get_user uid) = true)
    (h : ∀ t, d.enf.enforce_call "identity:check_user_in_group" (some t) [] =
      .error .forbidden) :
    (UserGroupCRUDResource.get d gid uid).1 = .error .forbidden ∧
    ∀ e ∈ (UserGroupCRUDResource.get d gid uid).2,
      primaryEv .check_user_in_group e = false := by
  rcases nominalGroupLookup_cases hg with ⟨g, hgk⟩ | ⟨i, hgk⟩ <;>
    rcases nominalUserLookup_cases hu with ⟨u, huk⟩ | ⟨j, huk⟩ <;>
    simp [UserGroupCRUDResource.get, UserGroupCRUDResource.build_enforcement_target_attr,
      lookup_group_masked, lookup_user_masked, hgk, huk, h, primaryEv]

theorem denied_add_user_to_group (d : Deps) (gid uid : String)
    (hg : nominalGroupLookup (d.api.get_group gid) = true)
    (hu : nominalUserLookup (d.api.get_user uid) = true)
    (h : ∀ t, d.enf.enforce_call "identity:add_user_to_group" (some t) [] =
      .error .forbidden) :
    (UserGroupCRUDResource.put d gid uid).1 = .error .forbidden ∧
    ∀ e ∈ (UserGroupCRUDResource.put d gid uid).2,
      primaryEv .add_user_to_group e = false := by
  rcases nominalGroupLookup_cases hg with ⟨g, hgk⟩ | ⟨i, hgk⟩ <;>
    rcases nominalUserLookup_cases hu with ⟨u, huk⟩ | ⟨j, huk⟩ <;>
    simp [UserGroupCRUDResource.put, UserGroupCRUDResource.build_enforcement_target_attr,
      lookup_group_masked, lookup_user_masked, hgk, huk, h, primaryEv]

theorem denied_remove_user_from_group (d : Deps) (gid uid : String)
    (hg : nominalGroupLookup (d.api.get_group gid) = true)
    (hu : nominalUserLookup (d.api.get_user uid) = true)
    (h : ∀ t, d.enf.enforce_call "identity:remove_user_from_group" (some t) [] =
      .error .forbidden) :
    (UserGroupCRUDResource.delete d gid uid).1 = .error .forbidden ∧
    ∀ e ∈ (UserGroupCRUDResource.delete d gid uid).2,
      primaryEv .remove_user_from_group e = false := by
  rcases nominalGroupLookup_cases hg with ⟨g, hgk⟩ | ⟨i, hgk⟩ <;>
    rcases nominalUserLookup_cases hu with ⟨u, huk⟩ | ⟨j, huk⟩ <;>
    simp [UserGroupCRUDResource.delete, UserGroupCRUDResource.build_enforcement_target_attr,
      lookup_group_masked, lookup_user_masked, hgk, huk, h, primaryEv]

/-! Trace characterizations of the membership handlers. -/

theorem trace_events_check (d : Deps) (gid uid : String) :
    ∀ e ∈ (UserGroupCRUDResource.get d gid uid).2,
      e = .get_group gid ∨ e = .get_user uid ∨
      (∃ t, e = .enforce "identity:check_user_in_group" (some t) []) ∨
      e = .check_user_in_group uid gid := by
  intro e he
  unfold UserGroupCRUDResource.get at he
  rcases mem_bindTr he with h | ⟨t, ht, h⟩
  · rcases builder_trace_events d.api uid gid e h with rfl | rfl
    · exact .inl rfl
    · exact .inr (.inl rfl)
  · rcases mem_step h with rfl | ⟨a, ha, h2⟩
    · exact .inr (.inr (.inl ⟨t, rfl⟩))
    · rcases mem_step h2 with rfl | ⟨b, hb, h3⟩
      · exact .inr (.inr (.inr rfl))
      · simp at h3

theorem trace_events_add (d : Deps) (gid uid : String) :
    ∀ e ∈ (UserGroupCRUDResource.put d gid uid).2,
      e = .get_group gid ∨ e = .get_user uid ∨
      (∃ t, e = .enforce "identity:add_user_to_group" (some t) []) ∨
      e = .add_user_to_group uid gid := by
  intro e he
  unfold UserGroupCRUDResource.put at he
  rcases mem_bindTr he with h | ⟨t, ht, h⟩
  · rcases builder_trace_events d.api uid gid e h with rfl | rfl
    · exact .inl rfl
    · exact .inr (.inl rfl)
  · rcases mem_step h with rfl | ⟨a, ha, h2⟩
    · exact .inr (.inr (.inl ⟨t, rfl⟩))
    · rcases mem_step h2 with rfl | ⟨b, hb, h3⟩
      · exact .inr (.inr (.inr rfl))
      · simp at h3

theorem trace_events_remove (d : Deps) (gid uid : String) :
    ∀ e ∈ (UserGroupCRUDResource.delete d gid uid).2,
      e = .get_group gid ∨ e = .get_user uid ∨
      (∃ t, e = .enforce "identity:remove_user_from_group" (some t) []) ∨
      e = .remove_user_from_group uid gid := by
  intro e he
  unfold UserGroupCRUDResource.delete at he
  rcases mem_bindTr he with h | ⟨t, ht, h⟩
  · rcases builder_trace_events d.api uid gid e h with rfl | rfl
    · exact .inl rfl
    · exact .inr (.inl rfl)
  · rcases mem_step h with rfl | ⟨a, ha, h2⟩
    · exact .inr (.inr (.inl ⟨t, rfl⟩))
    · rcases mem_step h2 with rfl | ⟨b, hb, h3⟩
      · exact .inr (.inr (.inr rfl))
      · simp at h3

theorem trace_events_lusers (d : Deps) (gid : String) :
    ∀ e ∈ (GroupUsersResource.get d gid).2,
      e = .get_group gid ∨
      (∃ t, e = .enforce "identity:list_users_in_group" (some t)
        ["domain_id", "enabled", "name", "password_expires_at"]) ∨
      e = .list_users_in_group gid
        (d.ext.build_driver_hints
          ["domain_id", "enabled", "name", "password_expires_at"]) := by
  intro e he
  unfold GroupUsersResource.get at he
  rcases mem_step he with rfl | ⟨a, ha, h⟩
  · exact .inl rfl
  · rcases mem_step h with rfl | ⟨b, hb, h2⟩
    · exact .inr (.inl ⟨_, rfl⟩)
    · rcases mem_step h2 with rfl | ⟨c, hc, h3⟩
      · exact .inr (.inr rfl)
      · simp at h3

/-! The claims. -/

/-- Claim C1: for every pair (user_id, group_id), the enforcement target
builder never raises on a NotFound lookup failure and returns a mapping
that contains key `group` exactly when the group lookup succeeds and key
`user` exactly when the user lookup succeeds; when both entities are
absent the returned mapping is empty. -/
theorem C1_target_builder_masks_notfound (api : IdentityApi)
    (user_id group_id : String)
    (hg : nominalGroupLookup (api.get_group group_id) = true)
    (hu : nominalUserLookup (api.get_user user_id) = true) :
    ∃ t : Target,
      (UserGroupCRUDResource.build_enforcement_target_attr api user_id group_id).1 =
        .ok t ∧
      ((∃ v, ("group", v) ∈ t) ↔ ∃ g, api.get_group group_id = .ok g) ∧
      ((∃ v, ("user", v) ∈ t) ↔ ∃ u, api.get_user user_id = .ok u) ∧
      (((∀ g, api.get_group group_id ≠ .ok g) ∧
        (∀ u, api.get_user user_id ≠ .ok u)) → t = []) := by
  rcases nominalGroupLookup_cases hg with ⟨g, hgk⟩ | ⟨i, hgk⟩ <;>
    rcases nominalUserLookup_cases hu with ⟨u, huk⟩ | ⟨j, huk⟩
  · refine ⟨[("group", .group g), ("user", .user u)], ?_, ?_, ?_, ?_⟩ <;>
      simp [UserGroupCRUDResource.build_enforcement_target_attr,
        lookup_group_masked, lookup_user_masked, hgk, huk]
  · refine ⟨[("group", .group g)], ?_, ?_, ?_, ?_⟩ <;>
      simp [UserGroupCRUDResource.build_enforcement_target_attr,
        lookup_group_masked, lookup_user_masked, hgk, huk]
  · refine ⟨[("user", .user u)], ?_, ?_, ?_, ?_⟩ <;>
      simp [UserGroupCRUDResource.build_enforcement_target_attr,
        lookup_group_masked, lookup_user_masked, hgk, huk]
  · refine ⟨[], ?_, ?_, ?_, ?_⟩ <;>
      simp [UserGroupCRUDResource.build_enforcement_target_attr,
        lookup_group_masked, lookup_user_masked, hgk, huk]

/-- Witness for C1: on the concrete backend, at a group id and user id
that both do not exist, both lookups raise their NotFound and the builder
returns the empty mapping without raising. -/
theorem C1_target_builder_masks_notfound_witness :
    (UserGroupCRUDResource.build_enforcement_target_attr apiW "uX" "gX").1 =
      .ok [] := by
  obtain ⟨t, h1, -, -, h4⟩ := C1_target_builder_masks_notfound apiW "uX" "gX" rfl rfl
  have hng : ∀ g, apiW.get_group "gX" ≠ .ok g := by
    intro g h
    rw [show apiW.get_group "gX" = .error (.groupNotFound "gX") from rfl] at h
    cases h
  have hnu : ∀ u, apiW.get_user "uX" ≠ .ok u := by
    intro u h
    rw [show apiW.get_user "uX" = .error (.userNotFound "uX") from rfl] at h
    cases h
  rw [h1, h4 ⟨hng, hnu⟩]

/-- Claim C2: for every membership operation (check, add, remove) and every
caller the policy enforcer denies, the observable outcome is the same
Forbidden result whether or not the referenced group or user exists: two
runs against backends differing in entity existence both end in
`Exc.forbidden`. -/
theorem C2_denied_outcome_independent_of_existence
    (api1 api2 : IdentityApi) (enf : Enforcer) (ext1 ext2 : Externals)
    (h : HandlerId) (req : Req)
    (hmem : h = .check_user_in_group ∨ h = .add_user_to_group ∨
      h = .remove_user_from_group)
    (hg1 : nominalGroupLookup (api1.get_group req.group_id) = true)
    (hu1 : nominalUserLookup (api1.get_user req.user_id) = true)
    (hg2 : nominalGroupLookup (api2.get_group req.group_id) = true)
    (hu2 : nominalUserLookup (api2.get_user req.user_id) = true)
    (hdeny : ∀ t, enf.enforce_call (actionOf h) (some t) [] = .error .forbidden) :
    (runHandler ⟨api1, enf, ext1⟩ h req).1 = .error .forbidden ∧
    (runHandler ⟨api2, enf, ext2⟩ h req).1 = .error .forbidden ∧
    (runHandler ⟨api1, enf, ext1⟩ h req).1 = (runHandler ⟨api2, enf, ext2⟩ h req).1 := by
  have H : ∀ (api : IdentityApi) (ext : Externals),
      nominalGroupLookup (api.get_group req.group_id) = true →
      nominalUserLookup (api.get_user req.user_id) = true →
      (runHandler ⟨api, enf, ext⟩ h req).1 = .error .forbidden := by
    intro api ext hg hu
    rcases hmem with rfl | rfl | rfl
    · exact (denied_check_user_in_group ⟨api, enf, ext⟩ req.group_id req.user_id
        hg hu hdeny).1
    · exact (denied_add_user_to_group ⟨api, enf, ext⟩ req.group_id req.user_id
        hg hu hdeny).1
    · exact (denied_remove_user_from_group ⟨api, enf, ext⟩ req.group_id req.user_id
        hg hu hdeny).1
  refine ⟨H api1 ext1 hg1 hu1, H api2 ext2 hg2 hu2, ?_⟩
  rw [H api1 ext1 hg1 hu1, H api2 ext2 hg2 hu2]

/-- Witness for C2: the membership check denied by the all-deny enforcer
gives the same Forbidden outcome on a backend where `g1`/`u1` exist and on
the empty backend. -/
theorem C2_denied_outcome_independent_of_existence_witness :
    (runHandler ⟨apiW, enfDeny, extW⟩ .check_user_in_group reqW).1 =
      .error .forbidden ∧
    (runHandler ⟨apiEmpty, enfDeny, extW⟩ .check_user_in_group reqW).1 =
      .error .forbidden ∧
    (runHandler ⟨apiW, enfDeny, extW⟩ .check_user_in_group reqW).1 =
      (runHandler ⟨apiEmpty, enfDeny, extW⟩ .check_user_in_group reqW).1 :=
  C2_denied_outcome_independent_of_existence apiW apiEmpty enfDeny extW extW
    .check_user_in_group reqW (.inl rfl) rfl rfl rfl rfl (fun _ => rfl)

/-- Claim C3: every handler runs target-building (where a target is built),
then the policy enforcer, then the identity backend: in every trace the
handler's primary backend operation is preceded by an enforcer invocation,
and when the enforcer denies, the outcome is Forbidden and the primary
operation is never invoked (so Forbidden preempts any NotFound the primary
operation would have raised). -/
theorem C3_enforce_runs_before_backend :
    (∀ (d : Deps) (h : HandlerId) (req : Req),
      enforceBefore (primaryEv h) (runHandler d h req).2 = true) ∧
    (∀ (d : Deps) (h : HandlerId) (req : Req),
      nominalGroupLookup (d.api.get_group req.group_id) = true →
      nominalUserLookup (d.api.get_user req.user_id) = true →
      (∀ a t f, d.enf.enforce_call a t f = .error .forbidden) →
      (runHandler d h req).1 = .error .forbidden ∧
      ∀ e ∈ (runHandler d h req).2, primaryEv h e = false) := by
  constructor
  · intro d h req
    cases h
    case get_group => exact enforceBefore_step_enforce _ _ _ _ _ _
    case list_groups => exact enforceBefore_step_enforce _ _ _ _ _ _
    case create_group => exact enforceBefore_step_enforce _ _ _ _ _ _
    case update_group => exact enforceBefore_step_enforce _ _ _ _ _ _
    case delete_group => exact enforceBefore_step_enforce _ _ _ _ _ _
    case list_users_in_group => exact order_list_users_in_group d req.group_id
    case check_user_in_group => exact order_check_user_in_group d req.group_id req.user_id
    case add_user_to_group => exact order_add_user_to_group d req.group_id req.user_id
    case remove_user_from_group =>
      exact order_remove_user_from_group d req.group_id req.user_id
  · intro d h req hg hu hdeny
    cases h
    case get_group => exact denied_get_group d req.group_id (hdeny _ _ _)
    case list_groups => exact denied_list_groups d (hdeny _ _ _)
    case create_group => exact denied_create_group d req.body (hdeny _ _ _)
    case update_group => exact denied_update_group d req.group_id req.body (hdeny _ _ _)
    case delete_group => exact denied_delete_group d req.group_id (hdeny _ _ _)
    case list_users_in_group =>
      exact denied_list_users_in_group d req.group_id hg (fun t => hdeny _ _ _)
    case check_user_in_group =>
      exact denied_check_user_in_group d req.group_id req.user_id hg hu
        (fun t => hdeny _ _ _)
    case add_user_to_group =>
      exact denied_add_user_to_group d req.group_id req.user_id hg hu
        (fun t => hdeny _ _ _)
    case remove_user_from_group =>
      exact denied_remove_user_from_group d req.group_id req.user_id hg hu
        (fun t => hdeny _ _ _)

/-- Witness for C3: the ordering check evaluated on the concrete allowing
run, and the denial branch evaluated with the all-deny enforcer, for the
membership-check handler on existing entities. -/
theorem C3_enforce_runs_before_backend_witness :
    enforceBefore (primaryEv .check_user_in_group)
      (runHandler depsW .check_user_in_group reqW).2 = true ∧
    (runHandler depsDeny .check_user_in_group reqW).1 = .error .forbidden :=
  ⟨C3_enforce_runs_before_backend.1 depsW .check_user_in_group reqW,
   (C3_enforce_runs_before_backend.2 depsDeny .check_user_in_group reqW rfl rfl
     (fun _ _ _ => rfl)).1⟩

/-- Claim C4: on PATCH of a group, a body `id` differing from the path id
fails with ValidationError before `update_group` is called; an absent or
equal body `id` passes through to the backend (enforcement and schema
validation assumed to pass, as they run first). -/
theorem C4_patch_requires_matching_id (d : Deps) (group_id : String)
    (body : GroupDoc)
    (henf : d.enf.enforce_call "identity:update_group" none [] = .ok ())
    (hval : d.ext.lazy_validate_group_update body = .ok ()) :
    (∀ i, body.id = some i → i ≠ group_id →
      (GroupsResource.patch d group_id body).1 = .error .validationError ∧
      Event.update_group group_id body ∉ (GroupsResource.patch d group_id body).2) ∧
    ((body.id = none ∨ body.id = some group_id) →
      Event.update_group group_id body ∈ (GroupsResource.patch d group_id body).2) := by
  constructor
  · intro i hid hne
    simp [GroupsResource.patch, henf, hval, require_matching_id, hid, hne]
  · rintro (hid | hid) <;>
      cases hb : d.api.update_group group_id body <;>
      simp [GroupsResource.patch, henf, hval, require_matching_id, hid, hb]

/-- Witness for C4: a body carrying id `gX` against path id `g1` fails with
ValidationError and never reaches the backend; a body without id reaches
the backend. -/
theorem C4_patch_requires_matching_id_witness :
    (GroupsResource.patch depsW "g1" ⟨some "gX", 0⟩).1 = .error .validationError ∧
    Event.update_group "g1" ⟨none, 0⟩ ∈ (GroupsResource.patch depsW "g1" ⟨none, 0⟩).2 :=
  ⟨((C4_patch_requires_matching_id depsW "g1" ⟨some "gX", 0⟩ rfl rfl).1 "gX" rfl
      (by decide)).1,
   (C4_patch_requires_matching_id depsW "g1" ⟨none, 0⟩ rfl rfl).2 (.inl rfl)⟩

/-- Claim C5: a delete-group request that passes enforcement returns the
empty 204 body when the backend delete succeeds, and propagates the
backend's GroupNotFound unmasked when the group does not exist. -/
theorem C5_delete_group_propagates_notfound (d : Deps) (group_id : String)
    (henf : d.enf.enforce_call "identity:delete_group" none [] = .ok ()) :
    (d.api.delete_group group_id = .ok () →
      GroupsResource.delete d group_id =
        (.ok .noContent,
         [.enforce "identity:delete_group" none [], .delete_group group_id])) ∧
    (∀ i, d.api.delete_group group_id = .error (.groupNotFound i) →
      (GroupsResource.delete d group_id).1 = .error (.groupNotFound i)) := by
  constructor
  · intro hb; simp [GroupsResource.delete, henf, hb]
  · intro i hb; simp [GroupsResource.delete, henf, hb]

/-- Witness for C5: deleting the existing group `g1` yields the empty 204
result; deleting the nonexistent `gX` propagates its GroupNotFound. -/
theorem C5_delete_group_propagates_notfound_witness :
    GroupsResource.delete depsW "g1" =
      (.ok .noContent,
       [.enforce "identity:delete_group" none [], .delete_group "g1"]) ∧
    (GroupsResource.delete depsW "gX").1 = .error (.groupNotFound "gX") :=
  ⟨(C5_delete_group_propagates_notfound depsW "g1" rfl).1 rfl,
   (C5_delete_group_propagates_notfound depsW "gX" rfl).2 "gX" rfl⟩

/-- Claim C6: on `PUT /groups/g1/users/u1` with the group existing and the
user absent, the target builder returns exactly `{group: g1}`; when policy
permits, `add_user_to_group` is invoked and its UserNotFound propagates to
the caller unmasked. -/
theorem C6_put_user_notfound_propagates (d : Deps) (group_id user_id : String)
    (g : Group) (i : String)
    (hg : d.api.get_group group_id = .ok g)
    (hu : d.api.get_user user_id = .error (.userNotFound i))
    (henf : d.enf.enforce_call "identity:add_user_to_group"
      (some [("group", TVal.group g)]) [] = .ok ())
    (hb : d.api.add_user_to_group user_id group_id =
      .error (.userNotFound user_id)) :
    (UserGroupCRUDResource.build_enforcement_target_attr d.api user_id group_id).1 =
      .ok [("group", TVal.group g)] ∧
    (UserGroupCRUDResource.put d group_id user_id).1 =
      .error (.userNotFound user_id) ∧
    Event.add_user_to_group user_id group_id ∈
      (UserGroupCRUDResource.put d group_id user_id).2 := by
  refine ⟨?_, ?_, ?_⟩ <;>
    simp [UserGroupCRUDResource.put, UserGroupCRUDResource.build_enforcement_target_attr,
      lookup_group_masked, lookup_user_masked, hg, hu, henf, hb]

/-- Witness for C6: the scenario evaluated on the concrete backend where
`g1` exists and user `uX` does not, with the all-allow enforcer. -/
theorem C6_put_user_notfound_propagates_witness :
    (UserGroupCRUDResource.build_enforcement_target_attr apiW "uX" "g1").1 =
      .ok [("group", TVal.group g1)] ∧
    (UserGroupCRUDResource.put depsW "g1" "uX").1 = .error (.userNotFound "uX") ∧
    Event.add_user_to_group "uX" "g1" ∈ (UserGroupCRUDResource.put depsW "g1" "uX").2 :=
  C6_put_user_notfound_propagates depsW "g1" "uX" g1 "uX" rfl rfl rfl rfl

/-- Claim C7: the list-users-in-group handler builds a group-only target
(the `group` key exactly when the group resolves, empty otherwise),
enforces `identity:list_users_in_group` with it, then calls the backend
with the path group id and returns the users as a collection named
"users". -/
theorem C7_list_users_flow (d : Deps) (group_id : String) :
    (∀ g, d.api.get_group group_id = .ok g →
      groupOnlyTarget (d.api.get_group group_id) = [("group", TVal.group g)]) ∧
    ((∀ g, d.api.get_group group_id ≠ .ok g) →
      groupOnlyTarget (d.api.get_group group_id) = []) ∧
    (∀ us : List User,
      nominalGroupLookup (d.api.get_group group_id) = true →
      d.enf.enforce_call "identity:list_users_in_group"
        (some (groupOnlyTarget (d.api.get_group group_id)))
        ["domain_id", "enabled", "name", "password_expires_at"] = .ok () →
      d.api.list_users_in_group group_id
        (d.ext.build_driver_hints
          ["domain_id", "enabled", "name", "password_expires_at"]) = .ok us →
      GroupUsersResource.get d group_id =
        (.ok (.userCollection "users" us),
         [.get_group group_id,
          .enforce "identity:list_users_in_group"
            (some (groupOnlyTarget (d.api.get_group group_id)))
            ["domain_id", "enabled", "name", "password_expires_at"],
          .list_users_in_group group_id
            (d.ext.build_driver_hints
              ["domain_id", "enabled", "name", "password_expires_at"])])) := by
  refine ⟨?_, ?_, ?_⟩
  · intro g hgk; simp [groupOnlyTarget, hgk]
  · intro hne
    cases hgk : d.api.get_group group_id with
    | ok g => exact absurd hgk (hne g)
    | error e => simp [groupOnlyTarget, hgk]
  · intro us hg henf hlist
    rcases nominalGroupLookup_cases hg with ⟨g, hgk⟩ | ⟨i, hgk⟩ <;>
      rw [hgk] at henf ⊢ <;>
      simp only [groupOnlyTarget] at henf <;>
      simp [GroupUsersResource.get, lookup_group_masked, groupOnlyTarget, hgk, henf, hlist]

/-- Witness for C7: the full flow evaluated on the concrete backend for
the existing group `g1`, whose sole member is `u1`. -/
theorem C7_list_users_flow_witness :
    groupOnlyTarget (apiW.get_group "g1") = [("group", TVal.group g1)] ∧
    GroupUsersResource.get depsW "g1" =
      (.ok (.userCollection "users" [u1]),
       [.get_group "g1",
        .enforce "identity:list_users_in_group" (some [("group", TVal.group g1)])
          ["domain_id", "enabled", "name", "password_expires_at"],
        .list_users_in_group "g1"
          ["domain_id", "enabled", "name", "password_expires_at"]]) :=
  ⟨(C7_list_users_flow depsW "g1").1 g1 rfl,
   (C7_list_users_flow depsW "g1").2.2 [u1] rfl rfl rfl⟩

/-- Claim C8: the masking is exception-type-specific: the group lookup
absorbs only GroupNotFound and the user lookup only UserNotFound; any
other exception raised while building the target propagates out of the
builder, out of the handler, and the enforcer is never invoked for that
request. -/
theorem C8_masking_is_type_specific :
    (∀ (api : IdentityApi) (uid gid : String) (e : Exc),
      api.get_group gid = .error e → e.isGroupNotFound = false →
      (UserGroupCRUDResource.build_enforcement_target_attr api uid gid).1 = .error e) ∧
    (∀ (api : IdentityApi) (uid gid : String) (e : Exc),
      nominalGroupLookup (api.get_group gid) = true →
      api.get_user uid = .error e → e.isUserNotFound = false →
      (UserGroupCRUDResource.build_enforcement_target_attr api uid gid).1 = .error e) ∧
    (∀ (d : Deps) (h : HandlerId) (req : Req) (e : Exc),
      (h = .check_user_in_group ∨ h = .add_user_to_group ∨
        h = .remove_user_from_group) →
      (UserGroupCRUDResource.build_enforcement_target_attr d.api
        req.user_id req.group_id).1 = .error e →
      (runHandler d h req).1 = .error e ∧
      ∀ ev ∈ (runHandler d h req).2, ev.isEnforce = false) ∧
    (∀ (d : Deps) (gid : String) (e : Exc),
      d.api.get_group gid = .error e → e.isGroupNotFound = false →
      (GroupUsersResource.get d gid).1 = .error e ∧
      ∀ ev ∈ (GroupUsersResource.get d gid).2, ev.isEnforce = false) := by
  refine ⟨?_, ?_, ?_, ?_⟩
  · intro api uid gid e hk hn
    cases e <;> simp_all [UserGroupCRUDResource.build_enforcement_target_attr,
      lookup_group_masked, Exc.isGroupNotFound]
  · intro api uid gid e hg hk hn
    rcases nominalGroupLookup_cases hg with ⟨g, hgk⟩ | ⟨i, hgk⟩ <;>
      cases e <;> simp_all [UserGroupCRUDResource.build_enforcement_target_attr,
        lookup_group_masked, lookup_user_masked, Exc.isUserNotFound]
  · intro d h req e hmem hb
    have key : runHandler d h req =
        (.error e, (UserGroupCRUDResource.build_enforcement_target_attr d.api
          req.user_id req.group_id).2) := by
      rcases hmem with rfl | rfl | rfl
      · show UserGroupCRUDResource.get d req.group_id req.user_id = _
        unfold UserGroupCRUDResource.get
        rw [bindTr_of_error hb]
      · show UserGroupCRUDResource.put d req.group_id req.user_id = _
        unfold UserGroupCRUDResource.put
        rw [bindTr_of_error hb]
      · show UserGroupCRUDResource.delete d req.group_id req.user_id = _
        unfold UserGroupCRUDResource.delete
        rw [bindTr_of_error hb]
    rw [key]
    refine ⟨rfl, ?_⟩
    intro ev hev
    rcases builder_trace_events d.api req.user_id req.group_id ev hev with rfl | rfl <;> rfl
  · intro d gid e hk hn
    cases e <;> simp_all [GroupUsersResource.get, lookup_group_masked,
      Exc.isGroupNotFound, Event.isEnforce]

/-- Witness for C8: a backend whose lookups raise `other`-class exceptions:
the builder and the handlers propagate them, evaluated concretely. -/
theorem C8_masking_is_type_specific_witness :
    (UserGroupCRUDResource.build_enforcement_target_attr apiBroken "u1" "g1").1 =
      .error (.other 7) ∧
    (UserGroupCRUDResource.build_enforcement_target_attr apiBroken2 "u1" "g1").1 =
      .error (.other 8) ∧
    (runHandler ⟨apiBroken, enfAllow, extW⟩ .check_user_in_group reqW).1 =
      .error (.other 7) ∧
    (GroupUsersResource.get ⟨apiBroken, enfAllow, extW⟩ "g1").1 =
      .error (.other 7) :=
  ⟨C8_masking_is_type_specific.1 apiBroken "u1" "g1" (.other 7) rfl rfl,
   C8_masking_is_type_specific.2.1 apiBroken2 "u1" "g1" (.other 8) rfl rfl rfl,
   (C8_masking_is_type_specific.2.2.1 ⟨apiBroken, enfAllow, extW⟩
     .check_user_in_group reqW (.other 7) (.inl rfl) rfl).1,
   (C8_masking_is_type_specific.2.2.2 ⟨apiBroken, enfAllow, extW⟩ "g1"
     (.other 7) rfl rfl).1⟩

/-- Claim C9: every mapping the target builder returns holds only the keys
`group` and `user`, each present key holds exactly the record the
corresponding backend lookup returned, and the builder performs no
observable action besides the two lookups. -/
theorem C9_target_builder_invariants (api : IdentityApi)
    (user_id group_id : String) :
    (∀ t, (UserGroupCRUDResource.build_enforcement_target_attr api
        user_id group_id).1 = .ok t →
      targetConforms api user_id group_id t = true) ∧
    ((UserGroupCRUDResource.build_enforcement_target_attr api user_id group_id).2 =
        [.get_group group_id] ∨
     (UserGroupCRUDResource.build_enforcement_target_attr api user_id group_id).2 =
        [.get_group group_id, .get_user user_id]) := by
  constructor
  · intro t ht
    cases hg : lookup_group_masked api group_id with
    | error e =>
      simp [UserGroupCRUDResource.build_enforcement_target_attr, hg] at ht
    | ok og =>
      cases hu : lookup_user_masked api user_id with
      | error e =>
        simp [UserGroupCRUDResource.build_enforcement_target_attr, hg, hu] at ht
      | ok ou =>
        simp [UserGroupCRUDResource.build_enforcement_target_attr, hg, hu] at ht
        subst ht
        unfold lookup_group_masked at hg
        unfold lookup_user_masked at hu
        cases og <;> cases ou <;>
          split at hg <;> split at hu <;>
          simp_all [targetConforms]
  · unfold UserGroupCRUDResource.build_enforcement_target_attr
    cases hg : lookup_group_masked api group_id <;>
      cases hu : lookup_user_masked api user_id <;> simp

/-- Witness for C9: the target built for the existing `u1`/`g1` pair
conforms, evaluated concretely. -/
theorem C9_target_builder_invariants_witness :
    targetConforms apiW "u1" "g1"
      [("group", TVal.group g1), ("user", TVal.user u1)] = true :=
  (C9_target_builder_invariants apiW "u1" "g1").1
    [("group", TVal.group g1), ("user", TVal.user u1)] rfl

/-- Claim C10: every membership handler passes the raw path-supplied ids to
its primary backend operation — any primary event in a trace carries
exactly the path ids — and `list_users_in_group` is invoked with the path
group id even when the group lookup failed and the target is empty, the
NotFound then arising from the primary call after enforcement. -/
theorem C10_primary_ops_use_path_ids :
    (∀ (d : Deps) (req : Req), ∀ e ∈ (runHandler d .check_user_in_group req).2,
      primaryEv .check_user_in_group e = true →
      e = .check_user_in_group req.user_id req.group_id) ∧
    (∀ (d : Deps) (req : Req), ∀ e ∈ (runHandler d .add_user_to_group req).2,
      primaryEv .add_user_to_group e = true →
      e = .add_user_to_group req.user_id req.group_id) ∧
    (∀ (d : Deps) (req : Req), ∀ e ∈ (runHandler d .remove_user_from_group req).2,
      primaryEv .remove_user_from_group e = true →
      e = .remove_user_from_group req.user_id req.group_id) ∧
    (∀ (d : Deps) (req : Req), ∀ e ∈ (runHandler d .list_users_in_group req).2,
      primaryEv .list_users_in_group e = true →
      e = .list_users_in_group req.group_id
        (d.ext.build_driver_hints
          ["domain_id", "enabled", "name", "password_expires_at"])) ∧
    (∀ (d : Deps) (gid i : String),
      d.api.get_group gid = .error (.groupNotFound i) →
      d.enf.enforce_call "identity:list_users_in_group" (some [])
        ["domain_id", "enabled", "name", "password_expires_at"] = .ok () →
      Event.enforce "identity:list_users_in_group" (some [])
          ["domain_id", "enabled", "name", "password_expires_at"] ∈
        (GroupUsersResource.get d gid).2 ∧
      Event.list_users_in_group gid
          (d.ext.build_driver_hints
            ["domain_id", "enabled", "name", "password_expires_at"]) ∈
        (GroupUsersResource.get d gid).2) := by
  refine ⟨?_, ?_, ?_, ?_, ?_⟩
  · intro d req e he hp
    rcases trace_events_check d req.group_id req.user_id e he with
      rfl | rfl | ⟨t, rfl⟩ | rfl
    · simp [primaryEv] at hp
    · simp [primaryEv] at hp
    · simp [primaryEv] at hp
    · rfl
  · intro d req e he hp
    rcases trace_events_add d req.group_id req.user_id e he with
      rfl | rfl | ⟨t, rfl⟩ | rfl
    · simp [primaryEv] at hp
    · simp [primaryEv] at hp
    · simp [primaryEv] at hp
    · rfl
  · intro d req e he hp
    rcases trace_events_remove d req.group_id req.user_id e he with
      rfl | rfl | ⟨t, rfl⟩ | rfl
    · simp [primaryEv] at hp
    · simp [primaryEv] at hp
    · simp [primaryEv] at hp
    · rfl
  · intro d req e he hp
    rcases trace_events_lusers d req.group_id e he with rfl | ⟨t, rfl⟩ | rfl
    · simp [primaryEv] at hp
    · simp [primaryEv] at hp
    · rfl
  · intro d gid i hg henf
    have hl : lookup_group_masked d.api gid = .ok none := by
      simp [lookup_group_masked, hg]
    cases hres : d.api.list_users_in_group gid
        (d.ext.build_driver_hints
          ["domain_id", "enabled", "name", "password_expires_at"]) <;>
      simp [GroupUsersResource.get, hl, henf, hres]

/-- Witness for C10: the primary event of the concrete membership check
carries the raw path ids, and, for a nonexistent group, the handler still
enforces on the empty target and then calls the backend with the path
group id. -/
theorem C10_primary_ops_use_path_ids_witness :
    Event.check_user_in_group "u1" "g1" =
      .check_user_in_group reqW.user_id reqW.group_id ∧
    Event.enforce "identity:list_users_in_group" (some [])
        ["domain_id", "enabled", "name", "password_expires_at"] ∈
      (GroupUsersResource.get ⟨apiEmpty, enfAllow, extW⟩ "gX").2 ∧
    Event.list_users_in_group "gX"
        ["domain_id", "enabled", "name", "password_expires_at"] ∈
      (GroupUsersResource.get ⟨apiEmpty, enfAllow, extW⟩ "gX").2 :=
  ⟨C10_primary_ops_use_path_ids.1 depsW reqW (.check_user_in_group "u1" "g1")
      (by decide) rfl,
   (C10_primary_ops_use_path_ids.2.2.2.2 ⟨apiEmpty, enfAllow, extW⟩ "gX" "gX"
      rfl rfl).1,
   (C10_primary_ops_use_path_ids.2.2.2.2 ⟨apiEmpty, enfAllow, extW⟩ "gX" "gX"
      rfl rfl).2⟩

end Keystone
